import Mathlib

/-!
Shallow embedding of the SafePay fraud-detection backend
(`app/utils/preprocessing.py`, `app/services/fraud_service.py`,
`app/models/model_loader.py`) and verification of its specification claims.

Python floats are modelled as rationals (`ℚ`); a Python dict of raw JSON
values is modelled as an association list from field names to `PyValue`.
Python booleans, being `int` subclasses, are represented as `PyValue.num 0/1`;
`PyValue.other` stands for every value that is neither a number nor a string
(None, lists, nested objects, ...).
-/

namespace SafePay

/-- A raw JSON-ish value carried in a request record. -/
inductive PyValue where
  | num (q : ℚ)
  | str (s : String)
  | other
  deriving DecidableEq, Repr

/-- A request record: Python `dict` as an association list (keys unique in
practice; lookup returns the first binding, as `dict` lookup would). -/
def Record := List (String × PyValue)

/-- `data[field]` as a total lookup: `none` models a `KeyError`. -/
def dlookup : Record → String → Option PyValue
  | [], _ => none
  | (k, v) :: rest, f => if k = f then some v else dlookup rest f

instance : DecidableEq Record := by
  unfold Record
  infer_instance

/-- `field in data`. -/
def hasField (d : Record) (f : String) : Bool :=
  (dlookup d f).isSome

/-- `float(v)` restricted to actual numbers: Python would also parse numeric
strings, but no validated record (the only inputs the claims quantify over)
carries a numeric string in a declared-numeric field. -/
def pyFloat? : PyValue → Option ℚ
  | .num q => some q
  | _ => none

/-- `str(v)` for the values reaching encoders; numeric/other reprs are opaque
here (claims only exercise string-valued categorical fields). -/
def pyStr : PyValue → String
  | .str s => s
  | .num q => toString q
  | .other => "<other>"

/-- The whitespace class of Python's `str.strip()`. -/
def isPySpace (c : Char) : Bool :=
  c == ' ' || c == '\t' || c == '\n' || c == '\r' || c == '\x0b' || c == '\x0c'

/-- `s.strip()`. -/
def pyStrip (s : String) : String :=
  ⟨((s.data.dropWhile isPySpace).reverse.dropWhile isPySpace).reverse⟩

/-- `s.lower()` (ASCII case folding suffices for the claims). -/
def pyLower (s : String) : String :=
  ⟨s.data.map Char.toLower⟩

/-! ## `app/utils/preprocessing.py` — validation -/

def onlineRequiredFields : List String :=
  ["step", "type", "amount", "oldbalanceOrg",
   "newbalanceOrig", "oldbalanceDest", "newbalanceDest"]

def onlineValidTypes : List String :=
  ["PAYMENT", "TRANSFER", "CASH_OUT", "DEBIT", "CASH_IN"]

def onlineNumericFields : List String :=
  ["step", "amount", "oldbalanceOrg", "newbalanceOrig",
   "oldbalanceDest", "newbalanceDest"]

/-- `data[field] not in valid_types` for the `type` field: Python list
membership compares with `==`, so only a string can match the string list. -/
def isValidType (v : PyValue) : Bool :=
  match v with
  | .str s => onlineValidTypes.contains s
  | _ => false

/-- `isinstance(data[field], (int, float)) and data[field] >= 0`. -/
def isNonnegNumber (v : Option PyValue) : Bool :=
  match v with
  | some (.num q) => decide (0 ≤ q)
  | _ => false

/-- The `type` membership test applied to the raw lookup (`data['type']`
raises `KeyError` only after the required-field loop has ruled absence out,
so the `none` case is unreachable and maps to `false`). -/
def isValidTypeOpt (v : Option PyValue) : Bool :=
  match v with
  | some v => isValidType v
  | none => false

/-- `validate_online_payment_data` (preprocessing.py lines 52-72). -/
def validate_online_payment_data (data : Record) : Bool :=
  onlineRequiredFields.all (fun f => hasField data f) &&
  isValidTypeOpt (dlookup data "type") &&
  onlineNumericFields.all (fun f => isNonnegNumber (dlookup data f))

def ccRequiredFields : List String :=
  ["merchant", "category", "amt", "city", "state",
   "lat", "long", "city_pop", "job", "merch_lat", "merch_long"]

def ccNumericFields : List String :=
  ["amt", "lat", "long", "city_pop", "merch_lat", "merch_long"]

def ccStringFields : List String :=
  ["merchant", "category", "city", "state", "job"]

/-- `isinstance(data[field], (int, float))`. -/
def isNumberValue (v : Option PyValue) : Bool :=
  match v with
  | some (.num _) => true
  | _ => false

/-- `isinstance(data[field], str) and data[field].strip()` non-empty. -/
def isNonemptyString (v : Option PyValue) : Bool :=
  match v with
  | some (.str s) => !(pyStrip s).data.isEmpty
  | _ => false

/-- `data['amt'] <= 0 → False`: by this line `amt` is already known numeric,
so the non-number cases are unreachable and map to `false`. -/
def isPositiveNumber (v : Option PyValue) : Bool :=
  match v with
  | some (.num q) => decide (0 < q)
  | _ => false

/-- `validate_credit_card_data` (preprocessing.py lines 125-147). -/
def validate_credit_card_data (data : Record) : Bool :=
  ccRequiredFields.all (fun f => hasField data f) &&
  ccNumericFields.all (fun f => isNumberValue (dlookup data f)) &&
  isPositiveNumber (dlookup data "amt") &&
  ccStringFields.all (fun f => isNonemptyString (dlookup data f))

/-! ## `app/utils/preprocessing.py` — online-payment feature building -/

/-- The online-payment label encoder argument: either an object with a
`transform` method (a fitted `sklearn` `LabelEncoder`; `transform` may raise,
modelled as `Except`), a plain `dict` mapping, or `None`.  An empty `dict`
and `None` are both falsy in `if label_encoder and ...`. -/
inductive OnlineEncoder where
  | transformer (f : PyValue → Except Unit Int)
  | dict (m : List (String × Int))

/-- The built-in `fallback_mapping` of `preprocess_online_payment_data`. -/
def fallback_mapping : List (String × Int) :=
  [("PAYMENT", 0), ("TRANSFER", 1), ("CASH_OUT", 2), ("DEBIT", 3), ("CASH_IN", 4)]

/-- `m.get(v, 0)` for a string-keyed mapping applied to a raw value. -/
def dictGet0 (m : List (String × Int)) (v : PyValue) : Int :=
  match v with
  | .str s =>
    match m.lookup s with
    | some n => n
    | none => 0
  | _ => 0

/-- The `type`-encoding block of `preprocess_online_payment_data`
(preprocessing.py lines 14-36): `transform` when available (any error falls
back to the built-in mapping), the dict's own entries when the encoder is a
non-empty plain map, and the built-in mapping otherwise. -/
def encodeType (label_encoder : Option OnlineEncoder) (v : PyValue) : Int :=
  match label_encoder with
  | some (.transformer f) =>
    match f v with
    | .ok n => n
    | .error _ => dictGet0 fallback_mapping v
  | some (.dict m) =>
    if m.isEmpty then dictGet0 fallback_mapping v else dictGet0 m v
  | none => dictGet0 fallback_mapping v

/-- `preprocess_online_payment_data` (preprocessing.py lines 11-50).
`none` models an uncaught exception (`KeyError` on a missing field or a
`TypeError` in the balance arithmetic); for validated records it always
returns `some` five features. -/
def preprocess_online_payment_data (data : Record) (label_encoder : Option OnlineEncoder) :
    Option (List ℚ) := do
  let tv ← dlookup data "type"
  let type_encoded := encodeType label_encoder tv
  let step ← (dlookup data "step").bind pyFloat?
  let amount ← (dlookup data "amount").bind pyFloat?
  let oldOrg ← (dlookup data "oldbalanceOrg").bind pyFloat?
  let newOrig ← (dlookup data "newbalanceOrig").bind pyFloat?
  let oldDest ← (dlookup data "oldbalanceDest").bind pyFloat?
  let newDest ← (dlookup data "newbalanceDest").bind pyFloat?
  let diffOrig := oldOrg - newOrig + amount
  let diffDest := newDest - oldDest - amount
  pure [step, amount, (type_encoded : ℚ), diffOrig, diffDest]

def get_online_payment_feature_names : List String :=
  ["step", "amount", "type_encoded", "diffOrig", "diffDest"]

/-! ## `app/utils/preprocessing.py` — credit-card feature building -/

/-- A per-field fitted credit-card encoder: its `transform` on the
stringified field value may raise (`ValueError` on an unseen category or
anything else), modelled as `Except Unit Int`. -/
structure CCEncoder where
  transform : String → Except Unit Int

/-- The credit-card `label_encoders` argument: `None` or a `dict` from field
name to fitted encoder (an empty dict is falsy, like `None`). -/
def CCEncoderMap := List (String × CCEncoder)

def ccNumericalFeatures : List String :=
  ["amt", "lat", "long", "city_pop", "merch_lat", "merch_long"]

def ccCategoricalFeatures : List String :=
  ["merchant", "category", "city", "state", "job"]

/-- One categorical feature in the fitted-encoders branch (preprocessing.py
lines 92-110): the whole access + transform sits in a `try` whose two
`except` arms both append `0`, and a field with no encoder also appends `0`. -/
def ccEncodedFeature (encs : CCEncoderMap) (data : Record) (f : String) : ℚ :=
  match encs.lookup f with
  | some enc =>
    match dlookup data f with
    | some v =>
      match enc.transform (pyStr v) with
      | .ok n => (n : ℚ)
      | .error _ => 0
    | none => 0
  | none => 0

/-- One categorical feature in the hash-fallback branch (preprocessing.py
lines 114-121): `abs(hash(str(value).strip().lower())) % 1000`, with any
error (including a missing field) caught and replaced by `0`.  Python's
string hash is process-salted, so it enters the model as the parameter
`hashFn`. -/
def ccHashFeature (hashFn : String → Int) (data : Record) (f : String) : ℚ :=
  match dlookup data f with
  | some v => (((hashFn (pyLower (pyStrip (pyStr v)))).natAbs % 1000 : ℕ) : ℚ)
  | none => 0

/-- The numeric-features loop (`features.append(float(data[feature]))`,
preprocessing.py lines 85-86): `none` models the uncaught `KeyError` /
`TypeError` on those reads. -/
def readNumericFeatures (data : Record) : List String → Option (List ℚ)
  | [] => some []
  | f :: fs => do
    let q ← (dlookup data f).bind pyFloat?
    let rest ← readNumericFeatures data fs
    pure (q :: rest)

/-- `preprocess_credit_card_data` (preprocessing.py lines 79-123): six
numeric features read directly, then five categorical features that never
raise.  The fitted-encoders branch runs only when `label_encoders` is a
truthy (non-`None`, non-empty) dict. -/
def preprocess_credit_card_data (data : Record) (label_encoders : Option CCEncoderMap)
    (hashFn : String → Int) : Option (List ℚ) := do
  let nums ← readNumericFeatures data ccNumericalFeatures
  let cats :=
    match label_encoders with
    | some m =>
      if m.isEmpty then ccCategoricalFeatures.map (ccHashFeature hashFn data)
      else ccCategoricalFeatures.map (ccEncodedFeature m data)
    | none => ccCategoricalFeatures.map (ccHashFeature hashFn data)
  pure (nums ++ cats)

def get_credit_card_feature_names : List String :=
  ["amt", "lat", "long", "city_pop", "merch_lat", "merch_long",
   "merchant_encoded", "category_encoded", "city_encoded",
   "state_encoded", "job_encoded"]

/-! ## `app/services/fraud_service.py` — risk assessment -/

/-- `FraudDetectionService._assess_risk` (fraud_service.py lines 128-137). -/
def assess_risk (probability : ℚ) : String × String :=
  if probability > 0.8 then ("high", "HIGH")
  else if probability > 0.6 then ("medium", "MEDIUM")
  else if probability > 0.4 then ("medium", "MEDIUM")
  else ("high", "LOW")

/-! ## `app/models/model_loader.py` — `MultiModelLoader`

The loader is generic in the model type `α` and encoder type `β` (Python
stores `Any`); its three dicts become association lists updated by
`listInsert`, which overwrites like a `dict` assignment. -/

def listInsert {γ : Type} : List (String × γ) → String → γ → List (String × γ)
  | [], k, v => [(k, v)]
  | (k', v') :: rest, k, v =>
    if k' = k then (k, v) :: rest else (k', v') :: listInsert rest k v

structure MultiModelLoader (α β : Type) where
  models : List (String × α)
  label_encoders : List (String × Option β)
  loaded_models : List (String × Bool)

def MultiModelLoader.empty (α β : Type) : MultiModelLoader α β :=
  ⟨[], [], []⟩

/-- Outcomes of the file system and deserialization attempts a single
`load_model` call performs; `pickleModel` is consulted only when
`joblibModel` fails (the nested `try`). `encoderPathExists` is
`encoder_path and Path(encoder_path).exists()`. -/
structure LoadEnv (α β : Type) where
  modelFileExists : Bool
  joblibModel : Option α
  pickleModel : Option α
  encoderPathExists : Bool
  joblibEncoder : Option β

/-- `MultiModelLoader.load_model` (model_loader.py lines 17-53): a missing
model file returns `False` without touching state; a model that neither
`joblib` nor `pickle` can deserialize lands in the outer `except`, which
records `loaded_models[name] = False`; otherwise the encoder is attempted
(any failure or absence stores `None`) and the domain is marked loaded. -/
def load_model {α β : Type} (l : MultiModelLoader α β) (model_name : String)
    (env : LoadEnv α β) : MultiModelLoader α β × Bool :=
  if !env.modelFileExists then (l, false)
  else
    match env.joblibModel.orElse (fun _ => env.pickleModel) with
    | none =>
      ({ l with loaded_models := listInsert l.loaded_models model_name false }, false)
    | some m =>
      let encVal : Option β :=
        if env.encoderPathExists then env.joblibEncoder else none
      ({ models := listInsert l.models model_name m,
         label_encoders := listInsert l.label_encoders model_name encVal,
         loaded_models := listInsert l.loaded_models model_name true }, true)

/-- Exceptions crossing the service layer. -/
inductive PyExc where
  | httpException (status : Nat) (detail : String)
  | valueError (detail : String)
  | keyError (key : String)
  | indexError
  deriving DecidableEq, Repr

/-- `str(e)` for the exceptions above (Starlette's `HTTPException.__str__`
is `f"{status_code}: {detail}"`). -/
def PyExc.toStr : PyExc → String
  | .httpException status detail => toString status ++ ": " ++ detail
  | .valueError detail => detail
  | .keyError key => "'" ++ key ++ "'"
  | .indexError => "list index out of range"

/-- `MultiModelLoader.get_model` (model_loader.py lines 55-59). -/
def get_model {α β : Type} (l : MultiModelLoader α β) (model_name : String) :
    Except PyExc α :=
  if !((l.loaded_models.lookup model_name).getD false) then
    .error (.valueError ("Model " ++ model_name ++ " not loaded"))
  else
    match l.models.lookup model_name with
    | some m => .ok m
    | none => .error (.keyError model_name)

/-- `MultiModelLoader.get_label_encoders` (model_loader.py lines 61-63):
`dict.get` returns `None` both for a missing key and for a stored `None`. -/
def get_label_encoders {α β : Type} (l : MultiModelLoader α β) (model_name : String) :
    Option β :=
  (l.label_encoders.lookup model_name).join

/-- `MultiModelLoader.is_model_loaded` (model_loader.py lines 84-86). -/
def is_model_loaded {α β : Type} (l : MultiModelLoader α β) (model_name : String) : Bool :=
  (l.loaded_models.lookup model_name).getD false

/-! ## `app/services/fraud_service.py` — the inference dispatchers -/

/-- A deserialized scikit-learn estimator as the service uses it: a declared
expected input width, a row-wise `predict`, and an optional row-wise
`predict_proba` returning the per-class pair whose second component is the
fraud probability. -/
structure SkModel where
  n_features_in_ : Nat
  predictRow : List ℚ → Int
  predictProbaRow : Option (List ℚ → ℚ × ℚ)

/-- `MultiModelLoader.predict` (model_loader.py lines 65-72): fetch the model
(raising if unloaded) and predict each row. -/
def loader_predict {β : Type} (l : MultiModelLoader SkModel β) (model_name : String)
    (rows : List (List ℚ)) : Except PyExc (List Int) := do
  let model ← get_model l model_name
  pure (rows.map model.predictRow)

/-- `MultiModelLoader.predict_proba` (model_loader.py lines 74-82): `none`
when the estimator exposes no `predict_proba`. -/
def loader_predict_proba {β : Type} (l : MultiModelLoader SkModel β) (model_name : String)
    (rows : List (List ℚ)) : Except PyExc (Option (List (ℚ × ℚ))) := do
  let model ← get_model l model_name
  match model.predictProbaRow with
  | some f => pure (some (rows.map f))
  | none => pure none

structure FraudDetectionResponse where
  model_type : String
  is_fraud : Bool
  fraud_probability : ℚ
  confidence_level : String
  risk_score : String
  transaction_amount : ℚ
  features_used : List (String × ℚ)
  deriving DecidableEq, Repr

/-- The `try` body of `predict_online_payment_fraud` (fraud_service.py lines
22-68).  A failing feature build (impossible for a record that passed
validation) raises the `KeyError`/`TypeError` of the missing read,
represented generically as a `keyError`. -/
def online_payment_body (l : MultiModelLoader SkModel OnlineEncoder) (data : Record) :
    Except PyExc FraudDetectionResponse := do
  if !validate_online_payment_data data then
    throw (.httpException 400 "Invalid online payment data")
  let label_encoder := get_label_encoders l "online-payment"
  let features ←
    match preprocess_online_payment_data data label_encoder with
    | some fs => Except.ok fs
    | none => Except.error (.keyError "preprocess")
  let feature_names := get_online_payment_feature_names
  let model ← get_model l "online-payment"
  let expected_features := model.n_features_in_
  if features.length ≠ expected_features then
    throw (.valueError ("Feature count mismatch: generated " ++
      toString features.length ++ ", model expects " ++ toString expected_features))
  let preds ← loader_predict l "online-payment" [features]
  let pred0 ←
    match preds.head? with
    | some p => Except.ok p
    | none => Except.error .indexError
  let prediction := pred0 != 0
  let probasOpt ← loader_predict_proba l "online-payment" [features]
  let probability ←
    match probasOpt with
    | some rows =>
      match rows.head? with
      | some row => Except.ok row.2
      | none => Except.error .indexError
    | none => Except.ok (0 : ℚ)
  let cr := assess_risk probability
  let transaction_amount := ((dlookup data "amount").bind pyFloat?).getD 0
  pure { model_type := "online-payment", is_fraud := prediction,
         fraud_probability := probability, confidence_level := cr.1,
         risk_score := cr.2, transaction_amount := transaction_amount,
         features_used := feature_names.zip features }

/-- `FraudDetectionService.predict_online_payment_fraud` (fraud_service.py
lines 20-72): the blanket `except Exception` catches every raise of the body
— the `HTTPException(400)` included — and re-raises it as a 500. -/
def predict_online_payment_fraud (l : MultiModelLoader SkModel OnlineEncoder)
    (data : Record) : Except PyExc FraudDetectionResponse :=
  match online_payment_body l data with
  | .ok r => .ok r
  | .error e =>
    .error (.httpException 500 ("Online payment prediction failed: " ++ e.toStr))

/-- The `try` body of `predict_credit_card_fraud` (fraud_service.py lines
76-122). -/
def credit_card_body (l : MultiModelLoader SkModel CCEncoderMap)
    (hashFn : String → Int) (data : Record) : Except PyExc FraudDetectionResponse := do
  if !validate_credit_card_data data then
    throw (.httpException 400 "Invalid credit card data")
  let label_encoders := get_label_encoders l "credit-card"
  let features ←
    match preprocess_credit_card_data data label_encoders hashFn with
    | some fs => Except.ok fs
    | none => Except.error (.keyError "preprocess")
  let feature_names := get_credit_card_feature_names
  let model ← get_model l "credit-card"
  let expected_features := model.n_features_in_
  if features.length ≠ expected_features then
    throw (.valueError ("Feature count mismatch: generated " ++
      toString features.length ++ ", model expects " ++ toString expected_features))
  let preds ← loader_predict l "credit-card" [features]
  let pred0 ←
    match preds.head? with
    | some p => Except.ok p
    | none => Except.error .indexError
  let prediction := pred0 != 0
  let probasOpt ← loader_predict_proba l "credit-card" [features]
  let probability ←
    match probasOpt with
    | some rows =>
      match rows.head? with
      | some row => Except.ok row.2
      | none => Except.error .indexError
    | none => Except.ok (0 : ℚ)
  let cr := assess_risk probability
  let transaction_amount := ((dlookup data "amt").bind pyFloat?).getD 0
  pure { model_type := "credit-card", is_fraud := prediction,
         fraud_probability := probability, confidence_level := cr.1,
         risk_score := cr.2, transaction_amount := transaction_amount,
         features_used := feature_names.zip features }

/-- `FraudDetectionService.predict_credit_card_fraud` (fraud_service.py
lines 74-126), with the same blanket 500 wrapper. -/
def predict_credit_card_fraud (l : MultiModelLoader SkModel CCEncoderMap)
    (hashFn : String → Int) (data : Record) : Except PyExc FraudDetectionResponse :=
  match credit_card_body l hashFn data with
  | .ok r => .ok r
  | .error e =>
    .error (.httpException 500 ("Credit card prediction failed: " ++ e.toStr))

/-! ## Concrete fixtures -/

/-- The spec's scenario record:
`{step:1, type:"PAYMENT", amount:9839.64, oldbalanceOrg:170136.0,
newbalanceOrig:160296.36, oldbalanceDest:0.0, newbalanceDest:0.0}`. -/
def onlineDemoRecord : Record :=
  [("step", .num 1), ("type", .str "PAYMENT"), ("amount", .num 9839.64),
   ("oldbalanceOrg", .num 170136.0), ("newbalanceOrig", .num 160296.36),
   ("oldbalanceDest", .num 0.0), ("newbalanceDest", .num 0.0)]

/-- A well-formed credit-card request record. -/
def ccDemoRecord : Record :=
  [("merchant", .str "fraud_Kirlin and Sons"), ("category", .str "personal_care"),
   ("amt", .num 25.5), ("city", .str "Columbia"), ("state", .str "SC"),
   ("lat", .num 33.9659), ("long", .num (-80.9355)), ("city_pop", .num 333497),
   ("job", .str "Mechanical engineer"), ("merch_lat", .num 33.986391),
   ("merch_long", .num (-81.200714))]

/-! ## Helper lemmas -/

theorem listInsert_lookup {γ : Type} (xs : List (String × γ)) (k : String) (v : γ) :
    (listInsert xs k v).lookup k = some v := by
  induction xs with
  | nil => simp [listInsert, List.lookup]
  | cons hd tl ih =>
    obtain ⟨k', v'⟩ := hd
    by_cases h : k' = k
    · simp [listInsert, h, List.lookup]
    · simp only [listInsert, if_neg h, List.lookup]
      rw [show (k == k') = false from beq_eq_false_iff_ne.mpr (fun hc => h hc.symm)]
      exact ih

theorem isNonnegNumber_iff (v : Option PyValue) :
    isNonnegNumber v = true ↔ ∃ q, v = some (.num q) ∧ 0 ≤ q := by
  rcases v with _ | v
  · simp [isNonnegNumber]
  · cases v <;> simp [isNonnegNumber]

theorem isNumberValue_iff (v : Option PyValue) :
    isNumberValue v = true ↔ ∃ q, v = some (.num q) := by
  rcases v with _ | v
  · simp [isNumberValue]
  · cases v <;> simp [isNumberValue]

theorem isPositiveNumber_iff (v : Option PyValue) :
    isPositiveNumber v = true ↔ ∃ q, v = some (.num q) ∧ 0 < q := by
  rcases v with _ | v
  · simp [isPositiveNumber]
  · cases v <;> simp [isPositiveNumber]

theorem isNonemptyString_iff (v : Option PyValue) :
    isNonemptyString v = true ↔
      ∃ s, v = some (.str s) ∧ (pyStrip s).data.isEmpty = false := by
  rcases v with _ | v
  · simp [isNonemptyString]
  · cases v <;> simp [isNonemptyString]

theorem isValidTypeOpt_iff (v : Option PyValue) :
    isValidTypeOpt v = true ↔ ∃ s, v = some (.str s) ∧ s ∈ onlineValidTypes := by
  rcases v with _ | v
  · simp [isValidTypeOpt]
  · cases v <;> simp [isValidTypeOpt, isValidType]

theorem hasField_iff (d : Record) (f : String) :
    hasField d f = true ↔ ∃ v, dlookup d f = some v := by
  simp [hasField, Option.isSome_iff_exists]

theorem readNumericFeatures_some (d : Record) (fields : List String)
    (h : ∀ f ∈ fields, ∃ q, dlookup d f = some (.num q)) :
    ∃ nums, readNumericFeatures d fields = some nums ∧ nums.length = fields.length := by
  induction fields with
  | nil => exact ⟨[], rfl, rfl⟩
  | cons f fs ih =>
    obtain ⟨q, hq⟩ := h f (List.mem_cons_self f fs)
    obtain ⟨nums, hn, hlen⟩ := ih (fun g hg => h g (List.mem_cons_of_mem f hg))
    refine ⟨q :: nums, ?_, by simp [hlen]⟩
    simp [readNumericFeatures, hq, hn, pyFloat?, Bind.bind, Option.bind]

theorem cc_valid_numeric (d : Record) (hv : validate_credit_card_data d = true) :
    ∀ f ∈ ccNumericFields, ∃ q, dlookup d f = some (.num q) := by
  simp only [validate_credit_card_data, Bool.and_eq_true, List.all_eq_true] at hv
  intro f hf
  exact (isNumberValue_iff _).mp (hv.1.1.2 f hf)

/-- For a validated record and a truthy (non-empty) encoder map, the
credit-card builder succeeds and splits into 6 numeric features followed by
the 5 per-field encoded categorical features. -/
theorem cc_encoders_branch (d : Record) (m : CCEncoderMap) (hashFn : String → Int)
    (hv : validate_credit_card_data d = true) (hm : m.isEmpty = false) :
    ∃ nums, nums.length = 6 ∧
      preprocess_credit_card_data d (some m) hashFn =
        some (nums ++ ccCategoricalFeatures.map (ccEncodedFeature m d)) := by
  have hfields : ccNumericalFeatures = ccNumericFields := rfl
  obtain ⟨nums, hn, hlen⟩ :=
    readNumericFeatures_some d ccNumericalFeatures
      (hfields ▸ cc_valid_numeric d hv)
  refine ⟨nums, by simpa [ccNumericalFeatures] using hlen, ?_⟩
  simp [preprocess_credit_card_data, hn, hm, Bind.bind, Option.bind]

theorem onlineDemoRecord_valid :
    validate_online_payment_data onlineDemoRecord = true := by
  simp [validate_online_payment_data, onlineRequiredFields, onlineNumericFields,
    hasField, dlookup, onlineDemoRecord, isValidTypeOpt, isValidType,
    isNonnegNumber, onlineValidTypes]
  norm_num

theorem ccDemoRecord_valid :
    validate_credit_card_data ccDemoRecord = true := by
  simp [validate_credit_card_data, ccRequiredFields, ccNumericFields, ccStringFields,
    hasField, dlookup, ccDemoRecord, isNumberValue, isPositiveNumber,
    isNonemptyString, pyStrip, isPySpace]
  norm_num

theorem readNumericFeatures_ext (d d' : Record)
    (hext : ∀ f, dlookup d f = dlookup d' f) (fields : List String) :
    readNumericFeatures d fields = readNumericFeatures d' fields := by
  induction fields with
  | nil => rfl
  | cons f fs ih => simp only [readNumericFeatures, hext, ih]

/-! ## The claims -/

/-- C1: every online-payment record that passes validation is mapped by
`preprocess_online_payment_data` to exactly the 5-element vector
`[step, amount, type_encoded, oldbalanceOrg - newbalanceOrig + amount,
newbalanceDest - oldbalanceDest - amount]`, in that order. -/
theorem claim_C1_online_feature_vector (d : Record) (enc : Option OnlineEncoder)
    (step amount oldOrg newOrig oldDest newDest : ℚ) (ty : String)
    (hv : validate_online_payment_data d = true)
    (ht : dlookup d "type" = some (.str ty))
    (hs : dlookup d "step" = some (.num step))
    (ha : dlookup d "amount" = some (.num amount))
    (ho : dlookup d "oldbalanceOrg" = some (.num oldOrg))
    (hn : dlookup d "newbalanceOrig" = some (.num newOrig))
    (hod : dlookup d "oldbalanceDest" = some (.num oldDest))
    (hnd : dlookup d "newbalanceDest" = some (.num newDest)) :
    preprocess_online_payment_data d enc =
      some [step, amount, (encodeType enc (.str ty) : ℚ),
            oldOrg - newOrig + amount, newDest - oldDest - amount] := by
  simp [preprocess_online_payment_data, ht, hs, ha, ho, hn, hod, hnd, pyFloat?,
    Bind.bind, Option.bind]

/-- C1 witness: the spec's scenario record under the built-in fallback
encoding yields `[1, 9839.64, 0, 19679.28, -9839.64]`. -/
theorem claim_C1_witness :
    validate_online_payment_data onlineDemoRecord = true ∧
    preprocess_online_payment_data onlineDemoRecord none =
      some [1, 9839.64, 0, 19679.28, -9839.64] := by
  refine ⟨onlineDemoRecord_valid, ?_⟩
  rw [claim_C1_online_feature_vector onlineDemoRecord none 1 9839.64 170136.0
    160296.36 0.0 0.0 "PAYMENT" onlineDemoRecord_valid rfl rfl rfl rfl rfl rfl rfl]
  norm_num [encodeType, dictGet0, fallback_mapping, List.lookup]

/-- C2 counterexample: at probability exactly 0.4 the code returns
`("high", "LOW")`, not the claimed `("medium", "MEDIUM")`. -/
theorem claim_C2_counterexample : assess_risk 0.4 ≠ ("medium", "MEDIUM") := by
  have h : assess_risk 0.4 = ("high", "LOW") := by norm_num [assess_risk]
  rw [h]
  decide

/-- C2 (amended): `_assess_risk` is pure and total and returns
`("high","HIGH")` for probability > 0.8, `("medium","MEDIUM")` for
0.4 < probability ≤ 0.8, and `("high","LOW")` for probability ≤ 0.4 —
so exactly 0.4 yields `("high","LOW")`, not `("medium","MEDIUM")`. -/
theorem claim_C2_assess_risk (p : ℚ) :
    (0.8 < p → assess_risk p = ("high", "HIGH")) ∧
    (0.4 < p → p ≤ 0.8 → assess_risk p = ("medium", "MEDIUM")) ∧
    (p ≤ 0.4 → assess_risk p = ("high", "LOW")) := by
  refine ⟨fun h => ?_, fun h1 h2 => ?_, fun h => ?_⟩
  · simp [assess_risk, h]
  · have h3 : ¬ (p > 0.8) := not_lt.mpr h2
    by_cases h4 : p > 0.6
    · simp [assess_risk, h3, h4]
    · simp [assess_risk, h3, h4, h1]
  · have h1 : ¬ (p > 0.8) := not_lt.mpr (h.trans (by norm_num))
    have h2 : ¬ (p > 0.6) := not_lt.mpr (h.trans (by norm_num))
    have h3 : ¬ (p > 0.4) := not_lt.mpr h
    simp [assess_risk, h1, h2, h3]

/-- C2 witness: the four boundary probabilities. -/
theorem claim_C2_witness :
    assess_risk 0.8 = ("medium", "MEDIUM") ∧ assess_risk 0.4 = ("high", "LOW") ∧
    assess_risk 0 = ("high", "LOW") ∧ assess_risk 1 = ("high", "HIGH") :=
  ⟨(claim_C2_assess_risk 0.8).2.1 (by norm_num) (by norm_num),
   (claim_C2_assess_risk 0.4).2.2 (by norm_num),
   (claim_C2_assess_risk 0).2.2 (by norm_num),
   (claim_C2_assess_risk 1).1 (by norm_num)⟩

/-- The priority policy exactly as the claim words it, for comparison with
the code's `encodeType`: step (ii) says a plain-map encoder uses *the fixed
built-in mapping*. -/
def specTypeEncodingPolicy (label_encoder : Option OnlineEncoder) (v : PyValue) : Int :=
  match label_encoder with
  | some (.transformer f) =>
    match f v with
    | .ok n => n
    | .error _ => dictGet0 fallback_mapping v
  | some (.dict _) => dictGet0 fallback_mapping v
  | none => dictGet0 fallback_mapping v

/-- C7 counterexample: for the plain map `{PAYMENT: 7}` the code encodes
`PAYMENT` with the map's own entry (7), while the claimed policy prescribes
the built-in mapping's 0. -/
theorem claim_C7_counterexample :
    encodeType (some (.dict [("PAYMENT", 7)])) (.str "PAYMENT") ≠
      specTypeEncodingPolicy (some (.dict [("PAYMENT", 7)])) (.str "PAYMENT") := by
  have h1 : encodeType (some (.dict [("PAYMENT", 7)])) (.str "PAYMENT") = 7 := by
    simp [encodeType, dictGet0, List.lookup]
  have h2 : specTypeEncodingPolicy (some (.dict [("PAYMENT", 7)])) (.str "PAYMENT") = 0 := by
    simp [specTypeEncodingPolicy, dictGet0, fallback_mapping, List.lookup]
  rw [h1, h2]
  norm_num

/-- C7 (amended): the type feature is encoded by priority: (i) a `transform`
capability is used, any error falling back to the fixed built-in mapping;
(ii) a plain non-empty map encodes with *its own* entries (default 0), an
empty map behaving as absent; (iii) with no usable encoder the built-in
mapping applies directly; a string absent from the consulted mapping
defaults to 0. -/
theorem claim_C7_type_encoding_policy (enc : Option OnlineEncoder) (v : PyValue) :
    (∀ f, enc = some (.transformer f) →
       encodeType enc v =
         (match f v with
          | .ok n => n
          | .error _ => dictGet0 fallback_mapping v)) ∧
    (∀ m, enc = some (.dict m) → m ≠ [] → encodeType enc v = dictGet0 m v) ∧
    (∀ m, enc = some (.dict m) → m = [] → encodeType enc v = dictGet0 fallback_mapping v) ∧
    (enc = none → encodeType enc v = dictGet0 fallback_mapping v) ∧
    (∀ m s, m.lookup s = none → dictGet0 m (.str s) = 0) := by
  refine ⟨?_, ?_, ?_, ?_, ?_⟩
  · intro f hf; subst hf; rfl
  · intro m hm hne; subst hm
    cases m with
    | nil => exact absurd rfl hne
    | cons hd tl => simp [encodeType]
  · intro m hm he; subst hm; subst he; rfl
  · intro hn; subst hn; rfl
  · intro m s hl; simp [dictGet0, hl]

/-- C7 witness: concrete instances of the three priority cases. -/
theorem claim_C7_witness :
    encodeType (some (.dict [("PAYMENT", 7)])) (.str "TRANSFER") = 0 ∧
    encodeType (some (.transformer (fun _ => .error ()))) (.str "TRANSFER") = 1 ∧
    encodeType none (.str "CASH_OUT") = 2 := by
  refine ⟨?_, ?_, ?_⟩
  · rw [(claim_C7_type_encoding_policy _ _).2.1 [("PAYMENT", 7)] rfl (by simp)]
    simp [dictGet0, List.lookup]
  · rw [(claim_C7_type_encoding_policy _ _).1 (fun _ => .error ()) rfl]
    simp [dictGet0, fallback_mapping, List.lookup]
  · rw [(claim_C7_type_encoding_policy _ _).2.2.2.1 rfl]
    simp [dictGet0, fallback_mapping, List.lookup]

/-- C9: both feature builders are deterministic and side-effect free: their
Python bodies never assign into the record or the encoders, which the
embedding reflects by being a pure function of them; hence two calls on
the same (observably equal) record and fixed encoder state return identical
vectors, and the record and encoder are left unchanged. -/
theorem claim_C9_idempotent_pure (d d' : Record) (enc : Option OnlineEncoder)
    (encs : Option CCEncoderMap) (hashFn : String → Int)
    (hext : ∀ f, dlookup d f = dlookup d' f) :
    preprocess_online_payment_data d enc = preprocess_online_payment_data d' enc ∧
    preprocess_credit_card_data d encs hashFn = preprocess_credit_card_data d' encs hashFn := by
  have henc : ∀ m : CCEncoderMap, ccEncodedFeature m d = ccEncodedFeature m d' := by
    intro m; funext f; simp only [ccEncodedFeature, hext]
  have hhash : ccHashFeature hashFn d = ccHashFeature hashFn d' := by
    funext f; simp only [ccHashFeature, hext]
  constructor
  · simp only [preprocess_online_payment_data, hext]
  · simp only [preprocess_credit_card_data,
      readNumericFeatures_ext d d' hext, henc, hhash]

/-- C9 witness: the two builders at concrete inputs. -/
theorem claim_C9_witness :
    preprocess_online_payment_data onlineDemoRecord none =
      preprocess_online_payment_data onlineDemoRecord none ∧
    preprocess_credit_card_data onlineDemoRecord none (fun _ => 2) =
      preprocess_credit_card_data onlineDemoRecord none (fun _ => 2) :=
  claim_C9_idempotent_pure onlineDemoRecord onlineDemoRecord none none
    (fun _ => 2) (fun _ => rfl)

/-- C5: both validators are total Lean functions into `Bool` (so they never
throw), and they return `true` exactly when no required field is missing,
every declared-numeric field is a number (non-negative for online payment),
the online-payment `type` is one of the five known types, the credit-card
`amt` is strictly positive, and every declared-string credit-card field is a
non-empty string after trimming whitespace. -/
theorem claim_C5_validators_total (d : Record) :
    (validate_online_payment_data d = true ↔
       ((∀ f ∈ onlineRequiredFields, ∃ v, dlookup d f = some v) ∧
        (∃ s, dlookup d "type" = some (.str s) ∧ s ∈ onlineValidTypes) ∧
        (∀ f ∈ onlineNumericFields, ∃ q, dlookup d f = some (.num q) ∧ 0 ≤ q))) ∧
    (validate_credit_card_data d = true ↔
       ((∀ f ∈ ccRequiredFields, ∃ v, dlookup d f = some v) ∧
        (∀ f ∈ ccNumericFields, ∃ q, dlookup d f = some (.num q)) ∧
        (∃ q, dlookup d "amt" = some (.num q) ∧ 0 < q) ∧
        (∀ f ∈ ccStringFields,
           ∃ s, dlookup d f = some (.str s) ∧ (pyStrip s).data.isEmpty = false))) := by
  constructor
  · simp only [validate_online_payment_data, Bool.and_eq_true, List.all_eq_true,
      hasField_iff, isValidTypeOpt_iff, isNonnegNumber_iff]
    tauto
  · simp only [validate_credit_card_data, Bool.and_eq_true, List.all_eq_true,
      hasField_iff, isNumberValue_iff, isPositiveNumber_iff, isNonemptyString_iff]
    tauto

/-- C5 witness: the validity facts extracted from the two demo records. -/
theorem claim_C5_witness :
    (∃ s, dlookup onlineDemoRecord "type" = some (.str s) ∧ s ∈ onlineValidTypes) ∧
    (∃ q, dlookup ccDemoRecord "amt" = some (.num q) ∧ 0 < q) :=
  ⟨((claim_C5_validators_total onlineDemoRecord).1.mp onlineDemoRecord_valid).2.1,
   ((claim_C5_validators_total ccDemoRecord).2.mp ccDemoRecord_valid).2.2.1⟩

/-- C6: for a validated credit-card record processed with a truthy encoder
map, a per-field encoder whose `transform` raises on that field's value
contributes feature 0, every other feature is still built (6 numeric plus 5
categorical, 11 in all), and no exception escapes (the result is `some`). -/
theorem claim_C6_transform_error_degrades (d : Record) (m : CCEncoderMap)
    (hashFn : String → Int) (f : String) (enc : CCEncoder) (v : PyValue)
    (hv : validate_credit_card_data d = true) (hm : m.isEmpty = false)
    (hf : f ∈ ccCategoricalFeatures) (hlook : m.lookup f = some enc)
    (hval : dlookup d f = some v) (herr : enc.transform (pyStr v) = .error ()) :
    ∃ nums, nums.length = 6 ∧
      preprocess_credit_card_data d (some m) hashFn =
        some (nums ++ ccCategoricalFeatures.map (ccEncodedFeature m d)) ∧
      (nums ++ ccCategoricalFeatures.map (ccEncodedFeature m d)).length = 11 ∧
      ccEncodedFeature m d f = 0 := by
  obtain ⟨nums, hlen, heq⟩ := cc_encoders_branch d m hashFn hv hm
  refine ⟨nums, hlen, heq, ?_, ?_⟩
  · simp [hlen, ccCategoricalFeatures]
  · simp [ccEncodedFeature, hlook, hval, herr]

/-- An encoder whose `transform` always raises (an always-unseen category). -/
def failingEncoder : CCEncoder := ⟨fun _ => .error ()⟩

/-- C6 witness: a failing merchant encoder on the demo record. -/
theorem claim_C6_witness :
    ∃ nums, nums.length = 6 ∧
      preprocess_credit_card_data ccDemoRecord (some [("merchant", failingEncoder)])
          (fun _ => 2) =
        some (nums ++ ccCategoricalFeatures.map
          (ccEncodedFeature [("merchant", failingEncoder)] ccDemoRecord)) ∧
      (nums ++ ccCategoricalFeatures.map
        (ccEncodedFeature [("merchant", failingEncoder)] ccDemoRecord)).length = 11 ∧
      ccEncodedFeature [("merchant", failingEncoder)] ccDemoRecord "merchant" = 0 :=
  claim_C6_transform_error_degrades ccDemoRecord [("merchant", failingEncoder)]
    (fun _ => 2) "merchant" failingEncoder (.str "fraud_Kirlin and Sons")
    ccDemoRecord_valid rfl (by simp [ccCategoricalFeatures]) rfl rfl rfl

/-- C10 counterexample: with an encoder map that exists but is empty, the
code takes the hash-based fallback branch (an empty dict is falsy in
`if label_encoders and ...`), so the categorical features are hash values
(here 2), not the claimed 0s. -/
theorem claim_C10_counterexample :
    preprocess_credit_card_data ccDemoRecord (some []) (fun _ => 2) ≠
      some [25.5, 33.9659, -80.9355, 333497, 33.986391, -81.200714,
            0, 0, 0, 0, 0] := by
  have h : preprocess_credit_card_data ccDemoRecord (some []) (fun _ => 2) =
      some [25.5, 33.9659, -80.9355, 333497, 33.986391, -81.200714,
            2, 2, 2, 2, 2] := by
    simp [preprocess_credit_card_data, readNumericFeatures, ccNumericalFeatures,
      ccCategoricalFeatures, ccHashFeature, dlookup, ccDemoRecord, pyFloat?,
      Bind.bind, Option.bind]
  intro hc
  rw [h] at hc
  have h6 := congrArg (fun o : Option (List ℚ) => (o.getD []).getD 6 99) hc
  norm_num at h6

/-- C10 (amended): when a *non-empty* encoder map is present but contains no
encoder for one of the five categorical fields, the builder appends 0 for
that field and still returns an 11-element vector; the hash-based fallback
is used when the encoder map is absent **or empty** (an empty dict is falsy,
so it behaves exactly like an absent map). -/
theorem claim_C10_missing_encoder_zero (d : Record) (m : CCEncoderMap)
    (hashFn : String → Int) (f : String)
    (hv : validate_credit_card_data d = true) (hm : m.isEmpty = false)
    (hf : f ∈ ccCategoricalFeatures) (hlook : m.lookup f = none) :
    (∃ nums, nums.length = 6 ∧
       preprocess_credit_card_data d (some m) hashFn =
         some (nums ++ ccCategoricalFeatures.map (ccEncodedFeature m d)) ∧
       (nums ++ ccCategoricalFeatures.map (ccEncodedFeature m d)).length = 11 ∧
       ccEncodedFeature m d f = 0) ∧
    preprocess_credit_card_data d none hashFn =
      preprocess_credit_card_data d (some []) hashFn := by
  constructor
  · obtain ⟨nums, hlen, heq⟩ := cc_encoders_branch d m hashFn hv hm
    refine ⟨nums, hlen, heq, ?_, ?_⟩
    · simp [hlen, ccCategoricalFeatures]
    · simp [ccEncodedFeature, hlook]
  · simp [preprocess_credit_card_data]

/-- C10 witness: a map holding only a `job` encoder appends 0 for
`merchant`, and an empty map acts exactly like an absent one. -/
theorem claim_C10_witness :
    ccEncodedFeature [("job", failingEncoder)] ccDemoRecord "merchant" = 0 ∧
    preprocess_credit_card_data ccDemoRecord none (fun _ => 2) =
      preprocess_credit_card_data ccDemoRecord (some []) (fun _ => 2) := by
  obtain ⟨⟨nums, hlen, heq, hlen11, hzero⟩, habsent⟩ :=
    claim_C10_missing_encoder_zero ccDemoRecord [("job", failingEncoder)]
      (fun _ => 2) "merchant" ccDemoRecord_valid rfl
      (by simp [ccCategoricalFeatures]) rfl
  exact ⟨hzero, habsent⟩

/-- C8: `load_model` returns false and leaves the domain unloaded when the
model artifact is missing or cannot be deserialized by either `joblib` or
`pickle`; when only the encoder artifact is missing or fails, it returns
true, marks the domain loaded, and records its encoder as absent, so
`get_label_encoders` subsequently returns `none` for that domain. -/
theorem claim_C8_load_model {α β : Type} (l : MultiModelLoader α β)
    (name : String) (env : LoadEnv α β) :
    (env.modelFileExists = false →
       load_model l name env = (l, false)) ∧
    (env.modelFileExists = false → is_model_loaded l name = false →
       (load_model l name env).2 = false ∧
       is_model_loaded (load_model l name env).1 name = false) ∧
    (env.modelFileExists = true → env.joblibModel = none → env.pickleModel = none →
       (load_model l name env).2 = false ∧
       is_model_loaded (load_model l name env).1 name = false) ∧
    (∀ mdl, env.modelFileExists = true →
       env.joblibModel.orElse (fun _ => env.pickleModel) = some mdl →
       (env.encoderPathExists = false ∨ env.joblibEncoder = none) →
       (load_model l name env).2 = true ∧
       is_model_loaded (load_model l name env).1 name = true ∧
       get_label_encoders (load_model l name env).1 name = none) := by
  refine ⟨?_, ?_, ?_, ?_⟩
  · intro h
    simp [load_model, h]
  · intro h hl
    simp [load_model, h, hl]
  · intro h h1 h2
    simp [load_model, h, h1, h2, Option.orElse, is_model_loaded, listInsert_lookup]
  · intro mdl h hsome hde
    have hencval : (if env.encoderPathExists then env.joblibEncoder else none)
        = (none : Option β) := by
      rcases hde with hde | hde
      · simp [hde]
      · simp [hde]
    simp [load_model, h, hsome, is_model_loaded, get_label_encoders,
      listInsert_lookup, hencval]

/-- C8 witness: three concrete load attempts against a fresh loader —
missing model file, undeserializable model, and model-only artifacts. -/
theorem claim_C8_witness :
    (load_model (MultiModelLoader.empty Unit Unit) "online-payment"
       ⟨false, none, none, false, none⟩ = (MultiModelLoader.empty Unit Unit, false)) ∧
    ((load_model (MultiModelLoader.empty Unit Unit) "online-payment"
        ⟨true, none, none, true, some ()⟩).2 = false ∧
     is_model_loaded (load_model (MultiModelLoader.empty Unit Unit) "online-payment"
        ⟨true, none, none, true, some ()⟩).1 "online-payment" = false) ∧
    ((load_model (MultiModelLoader.empty Unit Unit) "online-payment"
        ⟨true, some (), none, false, none⟩).2 = true ∧
     is_model_loaded (load_model (MultiModelLoader.empty Unit Unit) "online-payment"
        ⟨true, some (), none, false, none⟩).1 "online-payment" = true ∧
     get_label_encoders (load_model (MultiModelLoader.empty Unit Unit) "online-payment"
        ⟨true, some (), none, false, none⟩).1 "online-payment" = none) :=
  ⟨(claim_C8_load_model (MultiModelLoader.empty Unit Unit) "online-payment"
      ⟨false, none, none, false, none⟩).1 rfl,
   (claim_C8_load_model (MultiModelLoader.empty Unit Unit) "online-payment"
      ⟨true, none, none, true, some ()⟩).2.2.1 rfl rfl rfl,
   (claim_C8_load_model (MultiModelLoader.empty Unit Unit) "online-payment"
      ⟨true, some (), none, false, none⟩).2.2.2 () rfl rfl (Or.inl rfl)⟩

/-- C3 (code bug): a record failing validation makes the dispatcher raise
`HTTPException(400, "Invalid ... data")`, but the blanket `except Exception`
catches that very exception and re-raises it as a **500** "prediction
failed" error, so the client never receives the 4xx-equivalent InvalidInput
rejection the spec describes and the explicit 400 raise intends.  What does
hold: no feature building, model access, or prediction is attempted — the
outcome is identical for every loader state and hash function. -/
theorem claim_C3_invalid_input_wrapped_500 :
    (∀ l : MultiModelLoader SkModel OnlineEncoder,
       predict_online_payment_fraud l [] =
         .error (.httpException 500
           "Online payment prediction failed: 400: Invalid online payment data")) ∧
    (∀ (l : MultiModelLoader SkModel CCEncoderMap) (hashFn : String → Int),
       predict_credit_card_fraud l hashFn [] =
         .error (.httpException 500
           "Credit card prediction failed: 400: Invalid credit card data")) := by
  constructor
  · intro l
    have hv : validate_online_payment_data ([] : Record) = false := rfl
    have hbody : online_payment_body l ([] : Record) =
        .error (.httpException 400 "Invalid online payment data") := by
      simp [online_payment_body, hv, Bind.bind, Except.bind, throw, throwThe,
        MonadExceptOf.throw]
    simp only [predict_online_payment_fraud, hbody]
    rfl
  · intro l hashFn
    have hv : validate_credit_card_data ([] : Record) = false := rfl
    have hbody : credit_card_body l hashFn ([] : Record) =
        .error (.httpException 400 "Invalid credit card data") := by
      simp [credit_card_body, hv, Bind.bind, Except.bind, throw, throwThe,
        MonadExceptOf.throw]
    simp only [predict_credit_card_fraud, hbody]
    rfl

/-- C4: whenever the built feature vector's length differs from the loaded
model's declared `n_features_in_`, the dispatcher fails the request with the
feature-count-mismatch error, surfaced through the dispatcher's 500 wrapper
with the mismatch message; the conclusion holds uniformly in the model's
predict functions and never consults them, so the vector is never truncated
or padded to fit, and the check runs on every request in both domains. -/
theorem claim_C4_feature_count_mismatch :
    (∀ (l : MultiModelLoader SkModel OnlineEncoder) (d : Record)
       (fs : List ℚ) (mdl : SkModel),
       validate_online_payment_data d = true →
       preprocess_online_payment_data d (get_label_encoders l "online-payment") = some fs →
       get_model l "online-payment" = .ok mdl →
       fs.length ≠ mdl.n_features_in_ →
       predict_online_payment_fraud l d =
         .error (.httpException 500
           ("Online payment prediction failed: " ++
             ("Feature count mismatch: generated " ++ toString fs.length ++
              ", model expects " ++ toString mdl.n_features_in_)))) ∧
    (∀ (l : MultiModelLoader SkModel CCEncoderMap) (hashFn : String → Int)
       (d : Record) (fs : List ℚ) (mdl : SkModel),
       validate_credit_card_data d = true →
       preprocess_credit_card_data d (get_label_encoders l "credit-card") hashFn = some fs →
       get_model l "credit-card" = .ok mdl →
       fs.length ≠ mdl.n_features_in_ →
       predict_credit_card_fraud l hashFn d =
         .error (.httpException 500
           ("Credit card prediction failed: " ++
             ("Feature count mismatch: generated " ++ toString fs.length ++
              ", model expects " ++ toString mdl.n_features_in_)))) := by
  constructor
  · intro l d fs mdl hv hp hm hlen
    simp [predict_online_payment_fraud, online_payment_body, hv, hp, hm, hlen,
      PyExc.toStr, Bind.bind, Except.bind, Pure.pure, Except.pure,
      throw, throwThe, MonadExceptOf.throw]
  · intro l hashFn d fs mdl hv hp hm hlen
    simp [predict_credit_card_fraud, credit_card_body, hv, hp, hm, hlen,
      PyExc.toStr, Bind.bind, Except.bind, Pure.pure, Except.pure,
      throw, throwThe, MonadExceptOf.throw]

/-- An estimator declaring expected width 7 (so both domains' vectors, of
lengths 5 and 11, mismatch it). -/
def mismatchModel : SkModel := ⟨7, fun _ => 0, none⟩

def onlineMismatchLoader : MultiModelLoader SkModel OnlineEncoder :=
  ⟨[("online-payment", mismatchModel)], [], [("online-payment", true)]⟩

def ccMismatchLoader : MultiModelLoader SkModel CCEncoderMap :=
  ⟨[("credit-card", mismatchModel)], [], [("credit-card", true)]⟩

theorem onlineDemo_preprocess :
    preprocess_online_payment_data onlineDemoRecord none =
      some [1, 9839.64, 0, 19679.28, -9839.64] := by
  simp [preprocess_online_payment_data, onlineDemoRecord, dlookup, pyFloat?,
    encodeType, dictGet0, fallback_mapping, List.lookup, Bind.bind, Option.bind]
  norm_num

theorem ccDemo_preprocess_hash :
    preprocess_credit_card_data ccDemoRecord none (fun _ => 2) =
      some [25.5, 33.9659, -80.9355, 333497, 33.986391, -81.200714,
            2, 2, 2, 2, 2] := by
  simp [preprocess_credit_card_data, readNumericFeatures, ccNumericalFeatures,
    ccCategoricalFeatures, ccHashFeature, dlookup, ccDemoRecord, pyFloat?,
    Bind.bind, Option.bind]

/-- C4 witness: a width-7 estimator rejects the 5-feature online vector and
the 11-feature credit-card vector with the mismatch message. -/
theorem claim_C4_witness :
    predict_online_payment_fraud onlineMismatchLoader onlineDemoRecord =
      .error (.httpException 500
        "Online payment prediction failed: Feature count mismatch: generated 5, model expects 7") ∧
    predict_credit_card_fraud ccMismatchLoader (fun _ => 2) ccDemoRecord =
      .error (.httpException 500
        "Credit card prediction failed: Feature count mismatch: generated 11, model expects 7") :=
  ⟨claim_C4_feature_count_mismatch.1 onlineMismatchLoader onlineDemoRecord _
     mismatchModel onlineDemoRecord_valid onlineDemo_preprocess rfl (by decide),
   claim_C4_feature_count_mismatch.2 ccMismatchLoader (fun _ => 2) ccDemoRecord _
     mismatchModel ccDemoRecord_valid ccDemo_preprocess_hash rfl (by decide)⟩

end SafePay
